import Mathlib

/-!
Verification of the kinematics core and simulation controller of a 6-DOF
robot-arm pick-and-place simulator.  The development shallowly embeds:
  * the three.js vector / quaternion operations the code relies on,
  * `calculateChain` (forward kinematics) and `solveIK` (damped CCD),
  * the pick-and-place sequencer frame step and trigger handler,
  * the grasp/drop tracker frame step,
all translated from the TypeScript source, with machine floats modelled as
real numbers.
-/

namespace RoboSim

open scoped Classical

noncomputable section

/-- 3D vector with real components, mirroring three.js `Vector3`. -/
structure Vec3 where
  x : ℝ
  y : ℝ
  z : ℝ

namespace Vec3

def add (a b : Vec3) : Vec3 := ⟨a.x + b.x, a.y + b.y, a.z + b.z⟩

def sub (a b : Vec3) : Vec3 := ⟨a.x - b.x, a.y - b.y, a.z - b.z⟩

def multiplyScalar (a : Vec3) (s : ℝ) : Vec3 := ⟨a.x * s, a.y * s, a.z * s⟩

def dot (a b : Vec3) : ℝ := a.x * b.x + a.y * b.y + a.z * b.z

def cross (a b : Vec3) : Vec3 :=
  ⟨a.y * b.z - a.z * b.y, a.z * b.x - a.x * b.z, a.x * b.y - a.y * b.x⟩

def lengthSq (a : Vec3) : ℝ := a.x * a.x + a.y * a.y + a.z * a.z

def length (a : Vec3) : ℝ := Real.sqrt a.lengthSq

def distanceTo (a b : Vec3) : ℝ := (a.sub b).length

/-- three.js `normalize` divides by `length || 1`, so the zero vector is
returned unchanged. -/
def normalize (a : Vec3) : Vec3 :=
  let l := a.length
  let d := if l = 0 then 1 else l
  ⟨a.x / d, a.y / d, a.z / d⟩

def lerpVectors (a b : Vec3) (t : ℝ) : Vec3 :=
  ⟨a.x + (b.x - a.x) * t, a.y + (b.y - a.y) * t, a.z + (b.z - a.z) * t⟩

/-- three.js `angleTo`: arccos of the clamped normalized dot product, with a
fallback of pi/2 when either vector is zero. -/
def angleTo (a b : Vec3) : ℝ :=
  let denominator := Real.sqrt (a.lengthSq * b.lengthSq)
  if denominator = 0 then Real.pi / 2
  else Real.arccos (max (-1) (min 1 (a.dot b / denominator)))

end Vec3

/-- Quaternion, mirroring three.js `Quaternion` (x, y, z, w). -/
structure Quat where
  x : ℝ
  y : ℝ
  z : ℝ
  w : ℝ

namespace Quat

def identity : Quat := ⟨0, 0, 0, 1⟩

/-- three.js `setFromAxisAngle` (axis assumed normalized). -/
def setFromAxisAngle (axis : Vec3) (angle : ℝ) : Quat :=
  let halfAngle := angle / 2
  let s := Real.sin halfAngle
  ⟨axis.x * s, axis.y * s, axis.z * s, Real.cos halfAngle⟩

/-- three.js `multiplyQuaternions(a, b)` (Hamilton product). -/
def mul (a b : Quat) : Quat :=
  ⟨a.x * b.w + a.w * b.x + a.y * b.z - a.z * b.y,
   a.y * b.w + a.w * b.y + a.z * b.x - a.x * b.z,
   a.z * b.w + a.w * b.z + a.x * b.y - a.y * b.x,
   a.w * b.w - a.x * b.x - a.y * b.y - a.z * b.z⟩

end Quat

/-- three.js `Vector3.applyQuaternion`. -/
def Vec3.applyQuaternion (v : Vec3) (q : Quat) : Vec3 :=
  let tx := 2 * (q.y * v.z - q.z * v.y)
  let ty := 2 * (q.z * v.x - q.x * v.z)
  let tz := 2 * (q.x * v.y - q.y * v.x)
  ⟨v.x + q.w * tx + (q.y * tz - q.z * ty),
   v.y + q.w * ty + (q.z * tx - q.x * tz),
   v.z + q.w * tz + (q.x * ty - q.y * tx)⟩

/-- three.js `MathUtils.clamp(value, min, max) = Math.max(min, Math.min(max, value))`. -/
def clamp (value lo hi : ℝ) : ℝ := max lo (min hi value)

/-- The six joint angles of the arm (`RobotJoints` in `types.ts`). -/
structure RobotJoints where
  j1 : ℝ
  j2 : ℝ
  j3 : ℝ
  j4 : ℝ
  j5 : ℝ
  j6 : ℝ

/-- Joint identifiers (`keyof RobotJoints`). -/
inductive JKey where
  | j1 | j2 | j3 | j4 | j5 | j6
deriving DecidableEq

def RobotJoints.get (js : RobotJoints) : JKey → ℝ
  | .j1 => js.j1
  | .j2 => js.j2
  | .j3 => js.j3
  | .j4 => js.j4
  | .j5 => js.j5
  | .j6 => js.j6

def RobotJoints.set (js : RobotJoints) : JKey → ℝ → RobotJoints
  | .j1, v => { js with j1 := v }
  | .j2, v => { js with j2 := v }
  | .j3, v => { js with j3 := v }
  | .j4, v => { js with j4 := v }
  | .j5, v => { js with j5 := v }
  | .j6, v => { js with j6 := v }

/-- Per-joint angle range (`LIMITS` entries in `constants.ts`). -/
structure JLimit where
  lo : ℝ
  hi : ℝ

/-- `LIMITS` from `constants.ts`. -/
def LIMITS : JKey → JLimit
  | .j1 => ⟨-Real.pi, Real.pi⟩
  | .j2 => ⟨-(Real.pi / 2), Real.pi / 2⟩
  | .j3 => ⟨-(Real.pi / 1.5), Real.pi / 1.5⟩
  | .j4 => ⟨-Real.pi, Real.pi⟩
  | .j5 => ⟨-(Real.pi / 2), Real.pi / 2⟩
  | .j6 => ⟨-Real.pi, Real.pi⟩

/-- `BOX_SIZE` from `constants.ts`. -/
def BOX_SIZE : ℝ := 0.8

/-- `HOME_JOINTS` from `constants.ts`. -/
def HOME_JOINTS : RobotJoints := ⟨0, 0.2, 0.5, 0, -0.5, 0⟩

/-- `INITIAL_JOINTS` from `types.ts`. -/
def INITIAL_JOINTS : RobotJoints := ⟨0, 0, 0, 0, 0, 0⟩

/-- Result of `calculateChain`: the pushed joint anchor positions (7 entries,
base pivot through tool tip), the cumulative rotations (6 entries), and the
end-effector position. -/
structure Chain where
  positions : List Vec3
  rotations : List Quat
  endEffector : Vec3

/-- `calculateChain` from `utils/kinematics.ts`: simplified forward kinematics
producing anchor positions and cumulative orientations along the arm. -/
def calculateChain (joints : RobotJoints) : Chain :=
  -- 1. Base (J1): Translate(0, 1.1, 0) -> RotateY(-j1)
  let pos1 := (Vec3.mk 0 0 0).add ⟨0, 1.1, 0⟩
  let qJ1 := Quat.setFromAxisAngle ⟨0, 1, 0⟩ (-joints.j1)
  let rot1 := Quat.identity.mul qJ1
  -- 2. Shoulder (J2): RotateZ(j2)
  let qJ2 := Quat.setFromAxisAngle ⟨0, 0, 1⟩ joints.j2
  let rot2 := rot1.mul qJ2
  -- 3. Elbow (J3): Translate(0, 4, 0) -> RotateZ(j3)
  let vUpperArm := (Vec3.mk 0 4 0).applyQuaternion rot2
  let pos3 := pos1.add vUpperArm
  let qJ3 := Quat.setFromAxisAngle ⟨0, 0, 1⟩ joints.j3
  let rot3 := rot2.mul qJ3
  -- 4. Forearm to wrist center (J4): Translate(0, 1.5, 0) -> RotateY(j4)
  let vForearm1 := (Vec3.mk 0 1.5 0).applyQuaternion rot3
  let pos4 := pos3.add vForearm1
  let qJ4 := Quat.setFromAxisAngle ⟨0, 1, 0⟩ joints.j4
  let rot4 := rot3.mul qJ4
  -- 5. Wrist bend (J5): Translate(0, 0.2, 0) -> RotateZ(j5)
  let vWristDist := (Vec3.mk 0 0.2 0).applyQuaternion rot4
  let pos5 := pos4.add vWristDist
  let qJ5 := Quat.setFromAxisAngle ⟨0, 0, 1⟩ joints.j5
  let rot5 := rot4.mul qJ5
  -- 6. Flange (J6): Translate(0, 0.8, 0) -> RotateY(j6)
  let vFlangeDist := (Vec3.mk 0 0.8 0).applyQuaternion rot5
  let pos6 := pos5.add vFlangeDist
  let qJ6 := Quat.setFromAxisAngle ⟨0, 1, 0⟩ joints.j6
  let rot6 := rot5.mul qJ6
  -- 7. Tip: Translate(0, 0.5, 0)
  let vTipDist := (Vec3.mk 0 0.5 0).applyQuaternion rot6
  let ptip := pos6.add vTipDist
  { positions := [pos1, pos1, pos3, pos4, pos5, pos6, ptip]
    rotations := [rot1, rot2, rot3, rot4, rot5, rot6]
    endEffector := ptip }

/-! ## IK solver (`solveIK` in `utils/kinematics.ts`) -/

/-- Chain index of a joint's pivot in `positions`
(`0=J1, 1=J2, 2=J3, 3=J4, 4=J5`), per the `switch` in `solveIK`. -/
def jointIdx : JKey → ℕ
  | .j1 => 0
  | .j2 => 1
  | .j3 => 2
  | .j4 => 3
  | .j5 => 4
  | .j6 => 0

/-- Nominal local rotation axis of a joint, per the `switch` in `solveIK`
(Y for j1/j4, Z for j2/j3/j5; default Y). -/
def jointAxis : JKey → Vec3
  | .j1 => ⟨0, 1, 0⟩
  | .j2 => ⟨0, 0, 1⟩
  | .j3 => ⟨0, 0, 1⟩
  | .j4 => ⟨0, 1, 0⟩
  | .j5 => ⟨0, 0, 1⟩
  | .j6 => ⟨0, 1, 0⟩

/-- The raw signed CCD correction angle computed by the body of `solveIK`'s
per-joint step, before damping: angle between the projections of the
pivot-to-tip and pivot-to-target vectors onto the plane normal to the
joint's world-space axis, signed by the cross product against that axis. -/
def ccdRawAngle (targetPosition : Vec3) (js : RobotJoints) (key : JKey) : ℝ :=
  let chain := calculateChain js
  let tipPos := chain.endEffector
  let jIdx := jointIdx key
  let rotAxis := jointAxis key
  let jointPos := chain.positions.getD jIdx ⟨0, 0, 0⟩
  let parentRot := if jIdx > 0 then chain.rotations.getD (jIdx - 1) Quat.identity
                   else Quat.identity
  let worldAxis := (rotAxis.applyQuaternion parentRot).normalize
  let toEffector := (tipPos.sub jointPos).normalize
  let toTarget := (targetPosition.sub jointPos).normalize
  let toEffectorProj :=
    (toEffector.sub (worldAxis.multiplyScalar (toEffector.dot worldAxis))).normalize
  let toTargetProj :=
    (toTarget.sub (worldAxis.multiplyScalar (toTarget.dot worldAxis))).normalize
  let angle := toEffectorProj.angleTo toTargetProj
  let cross := toEffectorProj.cross toTargetProj
  if cross.dot worldAxis < 0 then -angle else angle

/-- One per-joint update of `solveIK`: compute the signed CCD angle, damp it
by 0.5, subtract it for j1 / add it for the other joints, and clamp to the
joint's limits. -/
def stepJoint (targetPosition : Vec3) (js : RobotJoints) (key : JKey) : RobotJoints :=
  let angle := ccdRawAngle targetPosition js key * 0.5
  let newVal := if key = .j1 then js.get key - angle else js.get key + angle
  let limit := LIMITS key
  js.set key (clamp newVal limit.lo limit.hi)

/-- Inner loop of `solveIK` over the fixed joint order: j6 is skipped
(`continue`), and the pass breaks out as soon as the tip is within 0.01 of
the target. -/
def ccdPass (targetPosition : Vec3) : RobotJoints → List JKey → RobotJoints
  | js, [] => js
  | js, key :: rest =>
    if key = .j6 then ccdPass targetPosition js rest
    else
      let chain := calculateChain js
      if chain.endEffector.distanceTo targetPosition < 0.01 then js
      else ccdPass targetPosition (stepJoint targetPosition js key) rest

/-- The fixed joint iteration order of `solveIK`. -/
def jointKeys : List JKey := [.j6, .j5, .j4, .j3, .j2, .j1]

/-- `solveIK` from `utils/kinematics.ts`: damped cyclic coordinate descent,
`iterations` passes over `jointKeys`. -/
def solveIK (targetPosition : Vec3) (currentJoints : RobotJoints)
    (iterations : ℕ) : RobotJoints :=
  (fun js => ccdPass targetPosition js jointKeys)^[iterations] currentJoints

/-- All six joint angles lie within their configured `LIMITS` ranges. -/
def inLimits (js : RobotJoints) : Prop :=
  ∀ k, (LIMITS k).lo ≤ js.get k ∧ js.get k ≤ (LIMITS k).hi

/-! ## Scene objects and the pick-and-place sequencer (`components/Scene.tsx`) -/

/-- `ObjectShape` from `types.ts`. -/
inductive ObjectShape where
  | box | sphere | cylinder
deriving DecidableEq

/-- `SceneObject` from `types.ts`. -/
structure SceneObject where
  id : String
  position : Vec3
  color : String
  shape : ObjectShape

/-- `PICK_AREA_POS` from `Scene.tsx`. -/
def PICK_AREA_POS : Vec3 := ⟨4, 0.05, 0⟩

/-- `DROP_AREA_POS` from `Scene.tsx`. -/
def DROP_AREA_POS : Vec3 := ⟨-4, 0.05, 0⟩

/-- `SequencePhase` from `Scene.tsx`. -/
inductive SequencePhase where
  | IDLE | APPROACH | DESCEND_PICK | GRIP | LIFT_PICK
  | TRAVEL | DESCEND_DROP | RELEASE | LIFT_DROP | HOME
deriving DecidableEq

/-- State of the `SimulationController` sequencer: the phase and waypoint
refs, the trigger-selected target object, and the externally shared pieces it
reads and writes (gripper flag, IK target, object list).  `completions`
counts `onSequenceComplete` invocations. -/
structure SeqState where
  phase : SequencePhase
  phaseStartTime : ℝ
  startPos : Vec3
  endPos : Vec3
  targetBoxId : Option String
  gripperOpen : Bool
  ikTargetPos : Vec3
  boxes : List SceneObject
  completions : ℕ

/-- `boxes.find(b => b.position[0] > 0)`: first object with x-coordinate
strictly greater than 0. -/
def findPick : List SceneObject → Option SceneObject
  | [] => none
  | b :: rest => if b.position.x > 0 then some b else findPick rest

/-- `boxes.find(b => b.id === targetBoxId.current)`. -/
def findById (tid : String) : List SceneObject → Option SceneObject
  | [] => none
  | b :: rest => if b.id = tid then some b else findById tid rest

/-- Look up the sequencer's selected target object (`null` id matches
nothing). -/
def findTargetBox (tid : Option String) (boxes : List SceneObject) : Option SceneObject :=
  match tid with
  | none => none
  | some t => findById t boxes

/-- The sequence-trigger effect in `SimulationController`: pick the first
object in the pick area (x > 0); if found, enter APPROACH aiming above it
and command the gripper open; otherwise signal completion immediately. -/
def triggerStep (now : ℝ) (s : SeqState) : SeqState :=
  match findPick s.boxes with
  | some availableBox =>
    { s with targetBoxId := some availableBox.id
             phase := .APPROACH
             phaseStartTime := now
             startPos := s.ikTargetPos
             endPos := ⟨availableBox.position.x, availableBox.position.y + 2,
                        availableBox.position.z⟩
             gripperOpen := true }
  | none => { s with completions := s.completions + 1 }

/-- `elapsed = (now - phaseStartTime.current) / 1000` (milliseconds to
seconds). -/
def phaseElapsed (now : ℝ) (s : SeqState) : ℝ := (now - s.phaseStartTime) / 1000

/-- `duration = max(0.5, dist / speed)` with `speed = 4.0`. -/
def phaseDuration (s : SeqState) : ℝ :=
  max 0.5 (s.startPos.distanceTo s.endPos / 4.0)

/-- `t = min(1, elapsed / duration)`. -/
def phaseT (now : ℝ) (s : SeqState) : ℝ :=
  min 1 (phaseElapsed now s / phaseDuration s)

/-- The per-frame sequence logic of `SimulationController.useFrame`:
interpolate the IK target along the current segment (except in the two
stationary phases) and, once `t ≥ 1`, run the phase-transition switch.
Reads of the `ikTargetPos` prop inside the switch see the frame-start value
(React state writes are visible only on the next frame). -/
def seqFrameStep (now : ℝ) (s : SeqState) : SeqState :=
  if s.phase = .IDLE then s
  else
    let elapsed := phaseElapsed now s
    let t := phaseT now s
    let currentLerp := Vec3.lerpVectors s.startPos s.endPos t
    let s1 := if s.phase ≠ .GRIP ∧ s.phase ≠ .RELEASE then
                { s with ikTargetPos := currentLerp }
              else s
    if t ≥ 1 then
      match s.phase with
      | .APPROACH =>
        match findTargetBox s.targetBoxId s.boxes with
        | some box =>
          { s1 with phase := .DESCEND_PICK, phaseStartTime := now,
                    startPos := currentLerp,
                    endPos := ⟨box.position.x, box.position.y + 0.2,
                               box.position.z⟩ }
        | none =>
          { s1 with phase := .IDLE, phaseStartTime := now,
                    startPos := currentLerp,
                    completions := s1.completions + 1 }
      | .DESCEND_PICK =>
        { s1 with phase := .GRIP, phaseStartTime := now, gripperOpen := false }
      | .GRIP =>
        if elapsed > 0.5 then
          { s1 with phase := .LIFT_PICK, phaseStartTime := now,
                    startPos := s.ikTargetPos,
                    endPos := s.ikTargetPos.add ⟨0, 3, 0⟩ }
        else s1
      | .LIFT_PICK =>
        { s1 with phase := .TRAVEL, phaseStartTime := now,
                  startPos := s.ikTargetPos,
                  endPos := ⟨DROP_AREA_POS.x, 3, DROP_AREA_POS.z⟩ }
      | .TRAVEL =>
        { s1 with phase := .DESCEND_DROP, phaseStartTime := now,
                  startPos := s.ikTargetPos,
                  endPos := ⟨DROP_AREA_POS.x, 1, DROP_AREA_POS.z⟩ }
      | .DESCEND_DROP =>
        { s1 with phase := .RELEASE, phaseStartTime := now, gripperOpen := true }
      | .RELEASE =>
        if elapsed > 0.5 then
          { s1 with phase := .LIFT_DROP, phaseStartTime := now,
                    startPos := s.ikTargetPos,
                    endPos := s.ikTargetPos.add ⟨0, 2, 0⟩ }
        else s1
      | .LIFT_DROP =>
        { s1 with phase := .HOME, phaseStartTime := now,
                  startPos := s.ikTargetPos,
                  endPos := (calculateChain HOME_JOINTS).endEffector }
      | .HOME =>
        { s1 with phase := .IDLE, completions := s1.completions + 1 }
      | .IDLE => s1
    else s1

/-- The gripper command value the sequencer maintains in each phase of a run
(false from GRIP entry up to RELEASE entry, true elsewhere). -/
def gripForPhase : SequencePhase → Bool
  | .GRIP | .LIFT_PICK | .TRAVEL | .DESCEND_DROP => false
  | _ => true

/-! ## Object grasp/drop tracker (`SimulationController`, gripper & physics
logic) -/

/-- State of the grasp/drop tracker: the held-object ref, the previous frame
gripper flag, and the shared object list. -/
structure TrackState where
  heldBoxId : Option String
  prevGripperOpen : Bool
  boxes : List SceneObject

/-- The gripper reference point: tool-tip world position lowered by 0.2
(`tipPos.y -= 0.2`). -/
def gripRef (tip : Vec3) : Vec3 := ⟨tip.x, tip.y - 0.2, tip.z⟩

/-- The `boxes.forEach` scan of the grab handler: running
`(closestBox, minDistance)` pair, updated whenever a strictly closer object
is found. -/
def grabScan (tipPos : Vec3) :
    List SceneObject → Option String → ℝ → Option String × ℝ
  | [], closestBox, minDistance => (closestBox, minDistance)
  | box :: rest, closestBox, minDistance =>
    let distance := tipPos.distanceTo box.position
    if distance < minDistance then grabScan tipPos rest (some box.id) distance
    else grabScan tipPos rest closestBox minDistance

/-- The grab handler's result: closest object id, starting from the grabbing
threshold `minDistance = 1.2`. -/
def findClosest (tipPos : Vec3) (boxes : List SceneObject) : Option String :=
  (grabScan tipPos boxes none 1.2).1

/-- Ground level based on shape:
`b.shape === 'sphere' ? BOX_SIZE / 1.5 : BOX_SIZE / 2`. -/
def groundOffset (shape : ObjectShape) : ℝ :=
  if shape = .sphere then BOX_SIZE / 1.5 else BOX_SIZE / 2

/-- The per-object gravity correction: objects more than 0.01 above their
resting height fall by 0.2, clamped at the resting height. -/
def fallObject (b : SceneObject) : SceneObject :=
  let g := groundOffset b.shape
  if b.position.y > g + 0.01 then
    { b with position := ⟨b.position.x, max g (b.position.y - 0.2), b.position.z⟩ }
  else b

/-- The gripper & physics section of `SimulationController.useFrame`:
detect open→closed (grab) and closed→open (release) transitions of the
gripper flag, then either pin the held object to the gripper reference point
or apply the gravity correction to all objects. -/
def trackerStep (gripperOpen : Bool) (tipRaw : Vec3) (s : TrackState) : TrackState :=
  let tipPos := gripRef tipRaw
  let held1 :=
    if s.prevGripperOpen && !gripperOpen then
      match findClosest tipPos s.boxes with
      | some id => some id
      | none => s.heldBoxId
    else s.heldBoxId
  let held2 := if !s.prevGripperOpen && gripperOpen then none else held1
  let boxes' :=
    match held2 with
    | some id =>
      s.boxes.map (fun b => if b.id = id then { b with position := tipPos } else b)
    | none => s.boxes.map fallObject
  { heldBoxId := held2, prevGripperOpen := gripperOpen, boxes := boxes' }

/-- Iterate the tracker frame step `n` times with a fixed gripper flag and a
per-frame tip position. -/
def runTracker (g : Bool) (tips : ℕ → Vec3) : ℕ → TrackState → TrackState
  | 0, s => s
  | n + 1, s => runTracker g tips n (trackerStep g (tips n) s)

end

section IKLemmas

theorem get_set_same (js : RobotJoints) (k : JKey) (v : ℝ) :
    (js.set k v).get k = v := by
  cases k <;> rfl

theorem get_set_ne (js : RobotJoints) (k k' : JKey) (v : ℝ) (h : k' ≠ k) :
    (js.set k v).get k' = js.get k' := by
  cases k <;> cases k' <;> first | rfl | exact absurd rfl h

theorem stepJoint_j6 (t : Vec3) (js : RobotJoints) (k : JKey) (h : k ≠ .j6) :
    (stepJoint t js k).get .j6 = js.get .j6 := by
  unfold stepJoint
  exact get_set_ne _ _ _ _ (fun hk => h hk.symm)

theorem ccdPass_j6 (t : Vec3) (keys : List JKey) (js : RobotJoints) :
    (ccdPass t js keys).get .j6 = js.get .j6 := by
  induction keys generalizing js with
  | nil => rfl
  | cons key rest ih =>
    unfold ccdPass
    by_cases hk : key = JKey.j6
    · simp only [hk, if_pos rfl]
      exact ih js
    · simp only [if_neg hk]
      by_cases hd : (calculateChain js).endEffector.distanceTo t < 0.01
      · simp only [if_pos hd]
      · simp only [if_neg hd]
        rw [ih, stepJoint_j6 _ _ _ hk]

theorem solveIK_j6 (t : Vec3) (js : RobotJoints) (n : ℕ) :
    (solveIK t js n).get .j6 = js.get .j6 := by
  unfold solveIK
  induction n with
  | zero => rfl
  | succ m ih => rw [Function.iterate_succ_apply', ccdPass_j6, ih]

theorem limits_lo_le_hi (k : JKey) : (LIMITS k).lo ≤ (LIMITS k).hi := by
  have h := Real.pi_nonneg
  have h3 : (0 : ℝ) ≤ Real.pi / 1.5 := by positivity
  cases k <;> simp only [LIMITS] <;> linarith

theorem clamp_mem (v lo hi : ℝ) (h : lo ≤ hi) :
    lo ≤ clamp v lo hi ∧ clamp v lo hi ≤ hi := by
  refine ⟨le_max_left _ _, max_le h (le_trans (min_le_left _ _) le_rfl)⟩

theorem stepJoint_inLimits (t : Vec3) (js : RobotJoints) (k : JKey)
    (h : inLimits js) : inLimits (stepJoint t js k) := by
  intro k'
  by_cases hk : k' = k
  · subst hk
    unfold stepJoint
    rw [get_set_same]
    exact clamp_mem _ _ _ (limits_lo_le_hi k')
  · unfold stepJoint
    rw [get_set_ne _ _ _ _ hk]
    exact h k'

theorem ccdPass_inLimits (t : Vec3) (keys : List JKey) (js : RobotJoints)
    (h : inLimits js) : inLimits (ccdPass t js keys) := by
  induction keys generalizing js with
  | nil => exact h
  | cons key rest ih =>
    unfold ccdPass
    by_cases hk : key = JKey.j6
    · simp only [hk, if_pos rfl]
      exact ih js h
    · simp only [if_neg hk]
      by_cases hd : (calculateChain js).endEffector.distanceTo t < 0.01
      · simp only [if_pos hd]
        exact h
      · simp only [if_neg hd]
        exact ih _ (stepJoint_inLimits t js key h)

end IKLemmas

/-- Claim C1 (counterexample): `solveIK` leaves j6 untouched, so an input
with j6 = 10 (outside [-pi, pi]) is returned with j6 = 10 still outside the
configured range, refuting the claim that the output always lies within
joint limits with no precondition on the input. -/
theorem C1_counterexample :
    ¬ inLimits (solveIK ⟨1, 1, 1⟩ ⟨0, 0, 0, 0, 0, 10⟩ 5) := by
  intro h
  have h6 := (h .j6).2
  rw [solveIK_j6] at h6
  have hpi : Real.pi < 4 := Real.pi_lt_four
  have : (RobotJoints.mk 0 0 0 0 0 10).get .j6 = 10 := rfl
  rw [this] at h6
  simp only [LIMITS] at h6
  linarith

/-- Claim C1 (amended): if every input joint angle lies within its configured
range, then for every target and every iteration count, every angle returned
by `solveIK` lies within its range (updated joints are clamped; untouched
joints, in particular j6, keep their in-range input values). -/
theorem C1_amended (target : Vec3) (js : RobotJoints) (n : ℕ)
    (h : inLimits js) : inLimits (solveIK target js n) := by
  unfold solveIK
  induction n with
  | zero => exact h
  | succ m ih =>
    rw [Function.iterate_succ_apply']
    exact ccdPass_inLimits _ _ _ ih

/-- Claim C1 (witness): the all-zero configuration is within limits and so is
the result of solving toward (1,1,1) for 5 iterations from it. -/
theorem C1_witness :
    inLimits INITIAL_JOINTS ∧ inLimits (solveIK ⟨1, 1, 1⟩ INITIAL_JOINTS 5) := by
  have h0 : inLimits INITIAL_JOINTS := by
    intro k
    have h := Real.pi_nonneg
    have h3 : (0 : ℝ) ≤ Real.pi / 1.5 := by positivity
    cases k <;> simp only [LIMITS, INITIAL_JOINTS, RobotJoints.get] <;>
      constructor <;> linarith
  exact ⟨h0, C1_amended ⟨1, 1, 1⟩ INITIAL_JOINTS 5 h0⟩

/-- Claim C9: in every per-joint update step of `solveIK`, the raw signed
CCD correction angle is damped by 0.5 and then subtracted from the current
value for j1 but added for j2..j5, after which the result is clamped to the
joint's configured range; and j6 is never updated by `solveIK`. -/
theorem C9_update_rule :
    (∀ t js, (stepJoint t js .j1).get .j1 =
      clamp (js.get .j1 - ccdRawAngle t js .j1 * 0.5) (LIMITS .j1).lo (LIMITS .j1).hi) ∧
    (∀ t js, (stepJoint t js .j2).get .j2 =
      clamp (js.get .j2 + ccdRawAngle t js .j2 * 0.5) (LIMITS .j2).lo (LIMITS .j2).hi) ∧
    (∀ t js, (stepJoint t js .j3).get .j3 =
      clamp (js.get .j3 + ccdRawAngle t js .j3 * 0.5) (LIMITS .j3).lo (LIMITS .j3).hi) ∧
    (∀ t js, (stepJoint t js .j4).get .j4 =
      clamp (js.get .j4 + ccdRawAngle t js .j4 * 0.5) (LIMITS .j4).lo (LIMITS .j4).hi) ∧
    (∀ t js, (stepJoint t js .j5).get .j5 =
      clamp (js.get .j5 + ccdRawAngle t js .j5 * 0.5) (LIMITS .j5).lo (LIMITS .j5).hi) ∧
    (∀ t js n, (solveIK t js n).get .j6 = js.get .j6) := by
  refine ⟨?_, ?_, ?_, ?_, ?_, fun t js n => solveIK_j6 t js n⟩ <;>
    · intro t js
      unfold stepJoint
      rw [get_set_same]
      split_ifs <;> first | rfl | simp_all

attribute [irreducible] calculateChain

/-- Claim C2: `calculateChain` applied to the all-zero joint configuration
returns an end-effector (tool-tip) position exactly equal to (0, 8.1, 0),
the sum of the fixed link offsets 1.1+4+1.5+0.2+0.8+0.5 stacked along the
vertical axis from the world origin. -/
theorem C2_fk_all_zero :
    (calculateChain INITIAL_JOINTS).endEffector = ⟨0, 8.1, 0⟩ := by
  show (calculateChain ⟨0, 0, 0, 0, 0, 0⟩).endEffector = ⟨0, 8.1, 0⟩
  simp only [calculateChain, Quat.setFromAxisAngle, Quat.identity, Quat.mul,
    Vec3.applyQuaternion, Vec3.add, Vec3.mk.injEq]
  norm_num

section SeqLemmas

theorem findPick_eq_none (bs : List SceneObject)
    (h : ∀ b ∈ bs, ¬ b.position.x > 0) : findPick bs = none := by
  induction bs with
  | nil => rfl
  | cons b rest ih =>
    unfold findPick
    rw [if_neg (h b (List.mem_cons_self b rest))]
    exact ih fun b' hb' => h b' (List.mem_cons_of_mem b hb')

end SeqLemmas

/-- Claim C6: if the sequence trigger fires while no scene object has
x-coordinate strictly greater than 0, the completion callback is invoked
immediately and exactly once and the sequencer state is otherwise untouched
(phase stays as it was — in particular IDLE stays IDLE, APPROACH is never
entered — and no target object or waypoints are set). -/
theorem C6_no_object (now : ℝ) (s : SeqState)
    (h : ∀ b ∈ s.boxes, ¬ b.position.x > 0) :
    triggerStep now s = { s with completions := s.completions + 1 } := by
  unfold triggerStep
  rw [findPick_eq_none s.boxes h]

/-- Claim C6 (witness): triggering on a state whose only object sits at
x = -4 leaves the phase IDLE and bumps the completion count to exactly 1. -/
theorem C6_witness :
    (∀ b ∈ (SeqState.mk .IDLE 0 ⟨0, 0, 0⟩ ⟨0, 0, 0⟩ none true ⟨4, 2, 0⟩
        [⟨"1", ⟨-4, 0.4, 0⟩, "red", .box⟩] 0).boxes, ¬ b.position.x > 0) ∧
    (triggerStep 0 (SeqState.mk .IDLE 0 ⟨0, 0, 0⟩ ⟨0, 0, 0⟩ none true ⟨4, 2, 0⟩
        [⟨"1", ⟨-4, 0.4, 0⟩, "red", .box⟩] 0)).phase = .IDLE ∧
    (triggerStep 0 (SeqState.mk .IDLE 0 ⟨0, 0, 0⟩ ⟨0, 0, 0⟩ none true ⟨4, 2, 0⟩
        [⟨"1", ⟨-4, 0.4, 0⟩, "red", .box⟩] 0)).completions = 1 := by
  have hbx : ∀ b ∈ (SeqState.mk .IDLE 0 ⟨0, 0, 0⟩ ⟨0, 0, 0⟩ none true ⟨4, 2, 0⟩
      [⟨"1", ⟨-4, 0.4, 0⟩, "red", .box⟩] 0).boxes, ¬ b.position.x > 0 := by
    intro b hb
    simp only [List.mem_singleton] at hb
    subst hb
    norm_num
  refine ⟨hbx, ?_, ?_⟩ <;> rw [C6_no_object 0 _ hbx]

/-- Claim C4 (counterexample): triggering a run while the gripper flag is
false (closed) writes the flag to true at the IDLE-to-APPROACH transition,
so the sequencer does change the gripper-open flag at a step other than
GRIP entry and RELEASE entry. -/
theorem C4_counterexample :
    (SeqState.mk .IDLE 0 ⟨0, 0, 0⟩ ⟨0, 0, 0⟩ none false ⟨4, 2, 0⟩
        [⟨"1", ⟨4, 0.4, 0⟩, "red", .box⟩] 0).gripperOpen = false ∧
    (triggerStep 0 (SeqState.mk .IDLE 0 ⟨0, 0, 0⟩ ⟨0, 0, 0⟩ none false ⟨4, 2, 0⟩
        [⟨"1", ⟨4, 0.4, 0⟩, "red", .box⟩] 0)).gripperOpen = true ∧
    (triggerStep 0 (SeqState.mk .IDLE 0 ⟨0, 0, 0⟩ ⟨0, 0, 0⟩ none false ⟨4, 2, 0⟩
        [⟨"1", ⟨4, 0.4, 0⟩, "red", .box⟩] 0)).phase = .APPROACH := by
  refine ⟨rfl, ?_, ?_⟩ <;>
  · simp only [triggerStep, findPick]
    rw [if_pos (by norm_num : (4 : ℝ) > 0)]

set_option maxHeartbeats 1000000 in
/-- Claim C4 (amended): the sequencer writes the gripper-open flag at three
places: at trigger time (to open, when a pick object is found), at
DESCEND_PICK-to-GRIP entry (to closed) and at DESCEND_DROP-to-RELEASE entry
(to open); the per-frame step changes the flag only at the latter two
transitions, so once a run starts the flag is false exactly in the phases
from GRIP entry to RELEASE entry (GRIP, LIFT_PICK, TRAVEL, DESCEND_DROP)
and true elsewhere. -/
theorem C4_amended (now : ℝ) (s : SeqState) :
    ((∃ b, findPick s.boxes = some b ∧ (triggerStep now s).gripperOpen = true ∧
        (triggerStep now s).phase = .APPROACH) ∨
      (findPick s.boxes = none ∧
        triggerStep now s = { s with completions := s.completions + 1 })) ∧
    (s.gripperOpen = gripForPhase s.phase →
      (seqFrameStep now s).gripperOpen = gripForPhase (seqFrameStep now s).phase) ∧
    ((seqFrameStep now s).gripperOpen ≠ s.gripperOpen →
      (s.phase = .DESCEND_PICK ∧ (seqFrameStep now s).phase = .GRIP ∧
        (seqFrameStep now s).gripperOpen = false) ∨
      (s.phase = .DESCEND_DROP ∧ (seqFrameStep now s).phase = .RELEASE ∧
        (seqFrameStep now s).gripperOpen = true)) := by
  obtain ⟨p, pst, sp, ep, tb, g, ik, bx, c⟩ := s
  refine ⟨?_, ?_, ?_⟩
  · rcases h : findPick bx with _ | b
    · right
      refine ⟨rfl, ?_⟩
      simp [triggerStep, h]
    · left
      refine ⟨b, rfl, ?_, ?_⟩ <;> simp [triggerStep, h]
  · intro hg
    cases p <;>
    · simp only [gripForPhase] at hg
      subst hg
      simp only [seqFrameStep, gripForPhase]
      split_ifs <;>
        (try rcases hfb : findTargetBox tb bx with _ | box) <;>
        simp_all [gripForPhase]
  · intro hne
    cases p <;>
    · simp only [seqFrameStep] at hne ⊢
      split_ifs at hne ⊢ <;>
        (try rcases hfb : findTargetBox tb bx with _ | box) <;>
        simp_all [gripForPhase]

/-- Claim C4 (witness): a DESCEND_PICK state with the gripper open satisfies
the phase-to-flag invariant, and so does its successor frame state. -/
theorem C4_witness :
    (SeqState.mk .DESCEND_PICK 0 ⟨1, 1, 1⟩ ⟨1, 1, 1⟩ none true ⟨0, 0, 0⟩ [] 0).gripperOpen
      = gripForPhase (SeqState.mk .DESCEND_PICK 0 ⟨1, 1, 1⟩ ⟨1, 1, 1⟩ none true
          ⟨0, 0, 0⟩ [] 0).phase ∧
    (seqFrameStep 600 (SeqState.mk .DESCEND_PICK 0 ⟨1, 1, 1⟩ ⟨1, 1, 1⟩ none true
        ⟨0, 0, 0⟩ [] 0)).gripperOpen
      = gripForPhase (seqFrameStep 600 (SeqState.mk .DESCEND_PICK 0 ⟨1, 1, 1⟩
          ⟨1, 1, 1⟩ none true ⟨0, 0, 0⟩ [] 0)).phase :=
  ⟨rfl, (C4_amended 600 _).2.1 rfl⟩

/-- Claim C5 (counterexample): a GRIP state whose carried waypoints are 4
units apart (duration = 1s) is still in GRIP 0.7 seconds after entry, so the
dwell is not 0.5 seconds regardless of the carried start and end
waypoints. -/
theorem C5_counterexample :
    phaseElapsed 700 (SeqState.mk .GRIP 0 ⟨0, 0, 0⟩ ⟨0, 4, 0⟩ none false
        ⟨0, 0, 0⟩ [] 0) > 0.5 ∧
    (seqFrameStep 700 (SeqState.mk .GRIP 0 ⟨0, 0, 0⟩ ⟨0, 4, 0⟩ none false
        ⟨0, 0, 0⟩ [] 0)).phase = .GRIP := by
  have h16 : Real.sqrt 16 = 4 := by
    rw [show (16 : ℝ) = 4 ^ 2 by norm_num]
    exact Real.sqrt_sq (by norm_num)
  constructor
  · unfold phaseElapsed
    norm_num
  · simp only [seqFrameStep, phaseT, phaseElapsed, phaseDuration, Vec3.distanceTo,
      Vec3.sub, Vec3.length, Vec3.lengthSq]
    norm_num [h16, max_def, min_def]

/-- Claim C5 (amended): from a GRIP state the sequencer moves to LIFT_PICK
exactly when both the interpolation parameter computed from the waypoints
carried over from DESCEND_PICK has reached 1 (elapsed at least
max(0.5, dist/4) seconds) and more than 0.5 seconds have elapsed since GRIP
entry; when those carried waypoints are at most 2 units apart this reduces
to the claimed fixed 0.5-second dwell. -/
theorem C5_amended (now : ℝ) (s : SeqState) (h : s.phase = .GRIP) :
    ((seqFrameStep now s).phase = .LIFT_PICK ↔
      phaseT now s ≥ 1 ∧ phaseElapsed now s > 0.5) ∧
    ((seqFrameStep now s).phase = .LIFT_PICK ∨ (seqFrameStep now s).phase = .GRIP) ∧
    (s.startPos.distanceTo s.endPos ≤ 2 →
      ((seqFrameStep now s).phase = .LIFT_PICK ↔ phaseElapsed now s > 0.5)) := by
  have key : (seqFrameStep now s).phase =
      if phaseT now s ≥ 1 ∧ phaseElapsed now s > 0.5 then .LIFT_PICK else .GRIP := by
    simp only [seqFrameStep, h]
    split_ifs <;> simp_all
  have hiff : (seqFrameStep now s).phase = .LIFT_PICK ↔
      phaseT now s ≥ 1 ∧ phaseElapsed now s > 0.5 := by
    rw [key]
    split_ifs with hc <;> simp [hc]
  refine ⟨hiff, ?_, ?_⟩
  · rw [key]
    split_ifs <;> simp
  · intro hd
    have hdur : phaseDuration s = 0.5 := by
      unfold phaseDuration
      have : s.startPos.distanceTo s.endPos / 4.0 ≤ 0.5 := by linarith
      exact max_eq_left this
    have ht : phaseT now s ≥ 1 ↔ phaseElapsed now s ≥ 0.5 := by
      unfold phaseT
      rw [hdur, ge_iff_le, le_min_iff]
      constructor
      · intro h1
        have h2 := h1.2
        rw [le_div_iff₀ (by norm_num : (0 : ℝ) < 0.5)] at h2
        linarith
      · intro h1
        refine ⟨le_refl 1, ?_⟩
        rw [le_div_iff₀ (by norm_num : (0 : ℝ) < 0.5)]
        linarith
    rw [hiff]
    constructor
    · exact fun hx => hx.2
    · exact fun hx => ⟨ht.mpr (le_of_lt hx), hx⟩

/-- Claim C5 (witness): with coincident carried waypoints (distance 0, so
duration = 0.5s) a GRIP state transitions to LIFT_PICK once more than 0.5
seconds have elapsed. -/
theorem C5_witness :
    (SeqState.mk .GRIP 0 ⟨1, 2, 3⟩ ⟨1, 2, 3⟩ none false ⟨0, 0, 0⟩ [] 0).phase
      = .GRIP ∧
    (SeqState.mk .GRIP 0 ⟨1, 2, 3⟩ ⟨1, 2, 3⟩ none false ⟨0, 0, 0⟩ [] 0).startPos.distanceTo
      (SeqState.mk .GRIP 0 ⟨1, 2, 3⟩ ⟨1, 2, 3⟩ none false ⟨0, 0, 0⟩ [] 0).endPos ≤ 2 ∧
    phaseElapsed 600 (SeqState.mk .GRIP 0 ⟨1, 2, 3⟩ ⟨1, 2, 3⟩ none false
      ⟨0, 0, 0⟩ [] 0) > 0.5 ∧
    (seqFrameStep 600 (SeqState.mk .GRIP 0 ⟨1, 2, 3⟩ ⟨1, 2, 3⟩ none false
      ⟨0, 0, 0⟩ [] 0)).phase = .LIFT_PICK := by
  have hd : (SeqState.mk .GRIP 0 ⟨1, 2, 3⟩ ⟨1, 2, 3⟩ none false ⟨0, 0, 0⟩ [] 0).startPos.distanceTo
      (SeqState.mk .GRIP 0 ⟨1, 2, 3⟩ ⟨1, 2, 3⟩ none false ⟨0, 0, 0⟩ [] 0).endPos ≤ 2 := by
    simp only [Vec3.distanceTo, Vec3.sub, Vec3.length, Vec3.lengthSq]
    norm_num [Real.sqrt_zero]
  have he : phaseElapsed 600 (SeqState.mk .GRIP 0 ⟨1, 2, 3⟩ ⟨1, 2, 3⟩ none false
      ⟨0, 0, 0⟩ [] 0) > 0.5 := by
    unfold phaseElapsed
    norm_num
  exact ⟨rfl, hd, he, ((C5_amended 600 _ rfl).2.2 hd).mpr he⟩

section TrackLemmas

theorem grabScan_le (tip : Vec3) (bs : List SceneObject) :
    ∀ best m, (grabScan tip bs best m).2 ≤ m ∧
      ∀ b ∈ bs, (grabScan tip bs best m).2 ≤ tip.distanceTo b.position := by
  induction bs with
  | nil =>
    intro best m
    exact ⟨le_rfl, by simp⟩
  | cons b rest ih =>
    intro best m
    simp only [grabScan]
    split_ifs with hd
    · obtain ⟨ih1, ih2⟩ := ih (some b.id) (tip.distanceTo b.position)
      refine ⟨le_trans ih1 (le_of_lt hd), ?_⟩
      intro b' hb'
      rcases List.mem_cons.mp hb' with h | h
      · subst h
        exact ih1
      · exact ih2 b' h
    · obtain ⟨ih1, ih2⟩ := ih best m
      refine ⟨ih1, ?_⟩
      intro b' hb'
      rcases List.mem_cons.mp hb' with h | h
      · subst h
        exact le_trans ih1 (not_lt.mp hd)
      · exact ih2 b' h

theorem grabScan_sel (tip : Vec3) (bs : List SceneObject) :
    ∀ best m id, (grabScan tip bs best m).1 = some id →
      (best = some id ∧ (grabScan tip bs best m).2 = m) ∨
      ∃ b ∈ bs, b.id = id ∧ (grabScan tip bs best m).2 = tip.distanceTo b.position := by
  induction bs with
  | nil =>
    intro best m id h
    exact Or.inl ⟨h, rfl⟩
  | cons b rest ih =>
    intro best m id h
    simp only [grabScan] at h ⊢
    split_ifs at h ⊢ with hd
    · rcases ih _ _ _ h with ⟨hb, hm⟩ | ⟨b', hmem, hid, hm⟩
      · right
        refine ⟨b, List.mem_cons_self b rest, ?_, hm⟩
        injection hb
      · right
        exact ⟨b', List.mem_cons_of_mem b hmem, hid, hm⟩
    · rcases ih _ _ _ h with ⟨hb, hm⟩ | ⟨b', hmem, hid, hm⟩
      · exact Or.inl ⟨hb, hm⟩
      · right
        exact ⟨b', List.mem_cons_of_mem b hmem, hid, hm⟩

theorem grabScan_lt (tip : Vec3) (bs : List SceneObject) :
    ∀ m id, (grabScan tip bs none m).1 = some id → (grabScan tip bs none m).2 < m := by
  induction bs with
  | nil =>
    intro m id h
    exact absurd h (by simp [grabScan])
  | cons b rest ih =>
    intro m id h
    simp only [grabScan] at h ⊢
    split_ifs at h ⊢ with hd
    · exact lt_of_le_of_lt (grabScan_le tip rest (some b.id) _).1 hd
    · exact ih m id h

theorem grabScan_keep (tip : Vec3) (bs : List SceneObject) :
    ∀ id0 m, ∃ id, (grabScan tip bs (some id0) m).1 = some id := by
  induction bs with
  | nil =>
    intro id0 m
    exact ⟨id0, rfl⟩
  | cons b rest ih =>
    intro id0 m
    simp only [grabScan]
    split_ifs with hd
    · exact ih b.id _
    · exact ih id0 m

theorem grabScan_some (tip : Vec3) (bs : List SceneObject) :
    ∀ best m, (∃ b ∈ bs, tip.distanceTo b.position < m) →
      ∃ id, (grabScan tip bs best m).1 = some id := by
  induction bs with
  | nil =>
    rintro best m ⟨b, hb, _⟩
    exact absurd hb (List.not_mem_nil b)
  | cons b rest ih =>
    rintro best m ⟨b', hb', hd'⟩
    simp only [grabScan]
    split_ifs with hd
    · exact grabScan_keep tip rest b.id _
    · rcases List.mem_cons.mp hb' with h | h
      · subst h
        exact absurd hd' hd
      · exact ih best m ⟨b', h, hd'⟩

theorem runTracker_succ_const (g : Bool) (tip : Vec3) (n : ℕ) (s : TrackState) :
    runTracker g (fun _ => tip) (n + 1) s
      = trackerStep g tip (runTracker g (fun _ => tip) n s) := by
  induction n generalizing s with
  | zero => rfl
  | succ m ih =>
    show runTracker g (fun _ => tip) (m + 1) (trackerStep g tip s) = _
    rw [ih]
    rfl

theorem trackerStep_open_none (tip : Vec3) (s : TrackState)
    (h1 : s.heldBoxId = none) (h2 : s.prevGripperOpen = true) :
    trackerStep true tip s = ⟨none, true, s.boxes.map fallObject⟩ := by
  simp [trackerStep, h1, h2]

theorem trackerStep_boxes (g : Bool) (tip : Vec3) (s : TrackState) :
    (trackerStep g tip s).boxes =
      match (trackerStep g tip s).heldBoxId with
      | some id =>
        s.boxes.map (fun b => if b.id = id then { b with position := gripRef tip } else b)
      | none => s.boxes.map fallObject := by
  simp only [trackerStep]

theorem c8_traj (n : ℕ) :
    runTracker true (fun _ => ⟨0, 9, 0⟩) n ⟨none, true, [⟨"1", ⟨4, 3, 0⟩, "red", .box⟩]⟩
      = ⟨none, true, [⟨"1", ⟨4, max 0.4 (3 - 0.2 * (n : ℝ)), 0⟩, "red", .box⟩]⟩ := by
  induction n with
  | zero =>
    simp only [runTracker, Nat.cast_zero]
    rw [show max (0.4 : ℝ) (3 - 0.2 * 0) = 3 by rw [max_eq_right] <;> norm_num]
  | succ m ih =>
    have hg0 : groundOffset ObjectShape.box = 0.4 := by
      simp only [groundOffset]
      rw [if_neg (fun hh => ObjectShape.noConfusion hh)]
      norm_num [BOX_SIZE]
    have hfall : fallObject ⟨"1", ⟨4, max 0.4 (3 - 0.2 * (m : ℝ)), 0⟩, "red", .box⟩
        = ⟨"1", ⟨4, max 0.4 (3 - 0.2 * ((m : ℝ) + 1)), 0⟩, "red", .box⟩ := by
      simp only [fallObject, hg0]
      split_ifs with h
      · have hc : (3 : ℝ) - 0.2 * m > 0.41 := by
          rcases lt_max_iff.mp h with h' | h'
          · norm_num at h'
          · linarith
        have hin : max (0.4 : ℝ) (3 - 0.2 * (m : ℝ)) = 3 - 0.2 * m :=
          max_eq_right (by linarith)
        rw [hin]
        have hy : max (0.4 : ℝ) (3 - 0.2 * (m : ℝ) - 0.2)
            = max 0.4 (3 - 0.2 * ((m : ℝ) + 1)) := by
          congr 1
          ring
        rw [hy]
      · push_neg at h
        have h2 : (3 : ℝ) - 0.2 * m ≤ 0.4 + 0.01 := le_trans (le_max_right _ _) h
        have hm13 : (13 : ℝ) ≤ (m : ℝ) := by
          by_contra hlt
          push_neg at hlt
          have hm12 : m ≤ 12 := by
            have hlt' : m < 13 := by exact_mod_cast hlt
            omega
          have hc12 : (m : ℝ) ≤ 12 := by exact_mod_cast hm12
          linarith
        have hmL : max (0.4 : ℝ) (3 - 0.2 * (m : ℝ)) = 0.4 :=
          max_eq_left (by linarith)
        have hmR : max (0.4 : ℝ) (3 - 0.2 * ((m : ℝ) + 1)) = 0.4 :=
          max_eq_left (by linarith)
        rw [hmL, hmR]
    rw [runTracker_succ_const, ih, trackerStep_open_none _ _ rfl rfl]
    simp only [List.map_cons, List.map_nil, hfall]
    push_cast
    rfl

end TrackLemmas

/-- Claim C7: on a gripper-flag transition from open to closed (with nothing
already held), the tracker marks as held exactly the result of the
closest-object scan from the gripper reference point (tool tip lowered by
0.2): an object is selected only if its distance is strictly below 1.2 and
no other object is closer, some object is selected whenever one is within
1.2, and at most one object is held at a time. -/
theorem C7_grasp (gripperOpen : Bool) (tip : Vec3) (s : TrackState)
    (hprev : s.prevGripperOpen = true) (hg : gripperOpen = false)
    (hheld : s.heldBoxId = none) :
    (trackerStep gripperOpen tip s).heldBoxId = findClosest (gripRef tip) s.boxes ∧
    (∀ id, findClosest (gripRef tip) s.boxes = some id →
      ∃ b ∈ s.boxes, b.id = id ∧ (gripRef tip).distanceTo b.position < 1.2 ∧
        ∀ b' ∈ s.boxes,
          (gripRef tip).distanceTo b.position ≤ (gripRef tip).distanceTo b'.position) ∧
    ((∃ b ∈ s.boxes, (gripRef tip).distanceTo b.position < 1.2) →
      ∃ id, findClosest (gripRef tip) s.boxes = some id) := by
  subst hg
  refine ⟨?_, ?_, ?_⟩
  · simp only [trackerStep, hprev, hheld]
    cases hc : findClosest (gripRef tip) s.boxes <;> simp [hc]
  · intro id hid
    simp only [findClosest] at hid
    rcases grabScan_sel (gripRef tip) s.boxes none 1.2 id hid with
      ⟨hcontra, _⟩ | ⟨b, hmem, hbid, hm⟩
    · exact absurd hcontra (by simp)
    · have hlt := grabScan_lt (gripRef tip) s.boxes 1.2 id hid
      rw [hm] at hlt
      refine ⟨b, hmem, hbid, hlt, ?_⟩
      intro b' hb'
      have hle := (grabScan_le (gripRef tip) s.boxes none 1.2).2 b' hb'
      rw [hm] at hle
      exact hle
  · rintro ⟨b, hb, hd⟩
    simp only [findClosest]
    exact grabScan_some (gripRef tip) s.boxes none 1.2 ⟨b, hb, hd⟩

/-- Claim C7 (witness): with the gripper reference point at the origin, an
object at distance 0.5 becomes held on the open-to-closed transition and an
object at distance 2.0 does not. -/
theorem C7_witness :
    (trackerStep false ⟨0, 0.2, 0⟩
      (TrackState.mk none true [⟨"a", ⟨0.5, 0, 0⟩, "red", .box⟩])).heldBoxId = some "a" ∧
    (trackerStep false ⟨0, 0.2, 0⟩
      (TrackState.mk none true [⟨"b", ⟨2, 0, 0⟩, "red", .box⟩])).heldBoxId = none := by
  have hgr : gripRef ⟨0, 0.2, 0⟩ = ⟨0, 0, 0⟩ := by
    simp only [gripRef]
    norm_num
  have hda : (gripRef ⟨0, 0.2, 0⟩).distanceTo ⟨0.5, 0, 0⟩ = 0.5 := by
    rw [hgr]
    simp only [Vec3.distanceTo, Vec3.sub, Vec3.length, Vec3.lengthSq]
    rw [show (0 - 0.5) * (0 - 0.5) + (0 - 0) * (0 - 0) + (0 - 0) * (0 - 0) = (0.5 : ℝ) ^ 2 by norm_num]
    exact Real.sqrt_sq (by norm_num)
  have hdb : (gripRef ⟨0, 0.2, 0⟩).distanceTo ⟨2, 0, 0⟩ = 2 := by
    rw [hgr]
    simp only [Vec3.distanceTo, Vec3.sub, Vec3.length, Vec3.lengthSq]
    rw [show (0 - 2) * (0 - 2) + (0 - 0) * (0 - 0) + (0 - 0) * (0 - 0) = (2 : ℝ) ^ 2 by norm_num]
    exact Real.sqrt_sq (by norm_num)
  constructor
  · rw [(C7_grasp false ⟨0, 0.2, 0⟩ _ rfl rfl rfl).1]
    simp only [findClosest, grabScan, hda]
    rw [if_pos (by norm_num : (0.5 : ℝ) < 1.2)]
  · rw [(C7_grasp false ⟨0, 0.2, 0⟩ _ rfl rfl rfl).1]
    simp only [findClosest, grabScan, hdb]
    rw [if_neg (by norm_num : ¬ (2 : ℝ) < 1.2)]

/-- Claim C8: on a frame tick in which no object is held (the tick ends with
the held-object reference empty), every object whose height exceeds its shape-specific
resting height (BOX_SIZE/2 = 0.4 for box and cylinder, BOX_SIZE/1.5 for
sphere) by more than 0.01 has its height decreased by exactly 0.2, clamped
at the resting height, and all other objects are unchanged; a box starting
at height 3 follows y = max 0.4 (3 - 0.2 n) tick by tick, reaching exactly
0.4 and then stopping. -/
theorem C8_gravity (g : Bool) (tip : Vec3) (s : TrackState)
    (hheld : (trackerStep g tip s).heldBoxId = none) :
    (trackerStep g tip s).boxes = s.boxes.map fallObject ∧
    (∀ b : SceneObject, b.position.y > groundOffset b.shape + 0.01 →
      fallObject b = { b with position :=
        ⟨b.position.x, max (groundOffset b.shape) (b.position.y - 0.2), b.position.z⟩ }) ∧
    (∀ b : SceneObject, ¬ b.position.y > groundOffset b.shape + 0.01 →
      fallObject b = b) ∧
    (∀ n : ℕ, (runTracker true (fun _ => ⟨0, 9, 0⟩) n
        ⟨none, true, [⟨"1", ⟨4, 3, 0⟩, "red", .box⟩]⟩).boxes
      = [⟨"1", ⟨4, max 0.4 (3 - 0.2 * (n : ℝ)), 0⟩, "red", .box⟩]) := by
  refine ⟨?_, ?_, ?_, ?_⟩
  · rw [trackerStep_boxes, hheld]
  · intro b hb
    simp only [fallObject]
    rw [if_pos hb]
  · intro b hb
    simp only [fallObject]
    rw [if_neg hb]
  · intro n
    rw [c8_traj n]

/-- Claim C8 (witness): in a steady open-gripper state holding nothing, the
frame tick applies exactly the per-object fall correction to the object
list. -/
theorem C8_witness :
    (trackerStep true ⟨0, 9, 0⟩
        (TrackState.mk none true [⟨"1", ⟨4, 3, 0⟩, "red", .box⟩])).heldBoxId = none ∧
    (trackerStep true ⟨0, 9, 0⟩
        (TrackState.mk none true [⟨"1", ⟨4, 3, 0⟩, "red", .box⟩])).boxes
      = [(⟨"1", ⟨4, 3, 0⟩, "red", .box⟩ : SceneObject)].map fallObject := by
  have h : (trackerStep true ⟨0, 9, 0⟩
      (TrackState.mk none true [⟨"1", ⟨4, 3, 0⟩, "red", .box⟩])).heldBoxId = none := by
    simp [trackerStep]
  exact ⟨h, (C8_gravity true ⟨0, 9, 0⟩ _ h).1⟩

section HeldLemmas

theorem trackerStep_held (tip : Vec3) (s : TrackState) (id : String)
    (h1 : s.heldBoxId = some id) (h2 : s.prevGripperOpen = false) :
    trackerStep false tip s = ⟨some id, false,
      s.boxes.map (fun b => if b.id = id then { b with position := gripRef tip } else b)⟩ := by
  simp [trackerStep, h1, h2]

theorem runTracker_held (tips : ℕ → Vec3) (n : ℕ) :
    ∀ (s : TrackState) (id : String), s.heldBoxId = some id →
      s.prevGripperOpen = false →
      (runTracker false tips n s).heldBoxId = some id ∧
      ∀ b ∈ s.boxes, b.id ≠ id → b ∈ (runTracker false tips n s).boxes := by
  induction n with
  | zero =>
    intro s id h1 h2
    exact ⟨h1, fun b hb _ => hb⟩
  | succ m ih =>
    intro s id h1 h2
    show (runTracker false tips m (trackerStep false (tips m) s)).heldBoxId = some id ∧ _
    have hstep := trackerStep_held (tips m) s id h1 h2
    obtain ⟨ih1, ih2⟩ := ih (trackerStep false (tips m) s) id
      (by rw [hstep]) (by rw [hstep])
    refine ⟨ih1, ?_⟩
    intro b hb hbid
    have hbmem : b ∈ (trackerStep false (tips m) s).boxes := by
      rw [hstep]
      simp only
      exact List.mem_map.mpr ⟨b, hb, by rw [if_neg hbid]⟩
    exact ih2 b hbmem hbid

end HeldLemmas

/-- Claim C10: on a frame tick during which an object is held and the
gripper stays closed, the tracker keeps holding the same object, rewrites
only the held object's position (pinning it to the gripper reference point)
and applies the fall-to-floor correction to no object, so any non-held
object keeps its exact record — in particular an airborne one keeps its
position — over any number of such ticks. -/
theorem C10_held_pins (tip : Vec3) (s : TrackState) (id : String)
    (hheld : s.heldBoxId = some id) (hprev : s.prevGripperOpen = false) :
    (trackerStep false tip s).heldBoxId = some id ∧
    (trackerStep false tip s).boxes =
      s.boxes.map (fun b => if b.id = id then { b with position := gripRef tip } else b) ∧
    (∀ b ∈ s.boxes, b.id ≠ id → b ∈ (trackerStep false tip s).boxes) ∧
    (∀ (tips : ℕ → Vec3) (n : ℕ),
      (runTracker false tips n s).heldBoxId = some id ∧
      ∀ b ∈ s.boxes, b.id ≠ id → b ∈ (runTracker false tips n s).boxes) := by
  have hstep := trackerStep_held tip s id hheld hprev
  refine ⟨by rw [hstep], by rw [hstep], ?_, ?_⟩
  · intro b hb hbid
    rw [hstep]
    simp only
    exact List.mem_map.mpr ⟨b, hb, by rw [if_neg hbid]⟩
  · intro tips n
    exact runTracker_held tips n s id hheld hprev

/-- Claim C10 (witness): with object "h" held and the gripper closed, the
tick pins "h" and keeps the airborne object "o" untouched, also across
three consecutive closed-gripper ticks. -/
theorem C10_witness :
    (TrackState.mk (some "h") false
      [⟨"h", ⟨0, 5, 0⟩, "red", .box⟩, ⟨"o", ⟨4, 3, 0⟩, "blue", .box⟩]).heldBoxId
        = some "h" ∧
    (trackerStep false ⟨1, 2, 3⟩ (TrackState.mk (some "h") false
      [⟨"h", ⟨0, 5, 0⟩, "red", .box⟩, ⟨"o", ⟨4, 3, 0⟩, "blue", .box⟩])).heldBoxId
        = some "h" ∧
    (⟨"o", ⟨4, 3, 0⟩, "blue", .box⟩ : SceneObject) ∈
      (runTracker false (fun _ => ⟨1, 2, 3⟩) 3 (TrackState.mk (some "h") false
        [⟨"h", ⟨0, 5, 0⟩, "red", .box⟩, ⟨"o", ⟨4, 3, 0⟩, "blue", .box⟩])).boxes := by
  refine ⟨rfl, (C10_held_pins ⟨1, 2, 3⟩ _ "h" rfl rfl).1, ?_⟩
  refine ((C10_held_pins ⟨1, 2, 3⟩ _ "h" rfl rfl).2.2.2 (fun _ => ⟨1, 2, 3⟩) 3).2
    ⟨"o", ⟨4, 3, 0⟩, "blue", .box⟩ (by simp) (by simp)

end RoboSim
